import Mathlib

/-!
# The OCaml call gateway of `backend/libserialize/serialization_stubs.c`

A shallow embedding of the C stubs that ferry byte buffers into the embedded
OCaml runtime and back, followed by theorems about the lock discipline, the
sentinel returns, the buffers handed to the caller and the diagnostics.

Conventions of the embedding.

* A byte is a `Nat`; the NUL byte is `0`.  A caller-side buffer (`void*`,
  `char*`) is the list of the bytes stored at the pointer; a returned pointer
  is an `Option`: `none` is `NULL`, `some buf` is freshly allocated memory
  holding `buf`.
* A C `int` is an `Int`; the conversion of a runtime length (`mlsize_t`) to
  `int` wraps modulo `2^32` (`int_of_mlsize`).  An `int` argument of the caller
  that the source uses as a length is given as a `Nat`.
* Everything the stubs do to the outside is written to a `world`: whether the
  runtime lock is held, and the sequence of events (lock operations, runtime
  accesses, lines printed) in the order they happen.
* A call ends in one of three ways (`outcome`): it blocks for ever in
  `caml_acquire_runtime_system` because the lock is already held, it faults,
  or it returns.  The stubs fault when `caml_string_length` is applied to an
  exception result, which is no pointer to a block, and when a block is copied
  with a length that `int` does not hold (negative after the conversion, or
  `INT_MAX` where the source adds one).  Exhaustion of the heap is not
  represented: `malloc` of a size computed without overflow succeeds.
-/

namespace SerializationStubs

/-! ## The OCaml runtime, as far as the stubs observe it -/

/-- The tag of string blocks (`String_tag` of caml/mlvalues.h). -/
def String_tag : Nat := 252

/-- The tag of closure blocks (`Closure_tag` of caml/mlvalues.h). -/
def Closure_tag : Nat := 247

/-- A runtime `value`, described by what the stubs read from it:
`Is_exception_result`, `Tag_val`, and the bytes that `String_val` and
`caml_string_length` see.  For a string these are `false`, `String_tag` and
its contents.  The stubs also apply `Tag_val` to exception results and
`caml_string_length` to blocks that are no strings; the fields then record
what those reads return.  The `bytes` of an exception result are never read:
`caml_string_length` faults on it. -/
structure value where
  is_exception_result : Bool
  tag : Nat
  bytes : List Nat
deriving DecidableEq, Repr

/-- The OCaml string holding `bytes`. -/
def string_value (bytes : List Nat) : value :=
  { is_exception_result := false, tag := String_tag, bytes := bytes }

/-- A value registered under a name (`Callback.register`): `val` is the value
itself, as `*caml_named_value(name)` shows it, and `apply` is what
`caml_callback_exn` returns when that value is applied to an argument. -/
structure named_value where
  val : value
  apply : value → value

/-- The table of named values consulted by `caml_named_value`; `none` is the
`NULL` returned for a name that was never registered. -/
abbrev registry := String → Option named_value

/-- The lines the stubs print, with the context fields of the three warnings. -/
inductive log_line where
  | ocaml_loaded
  | registering_main_thread
  | exception_thrown (ctx1 ctx2 ctx3 : String)
  | closure_not_found (ctx1 ctx2 ctx3 : String)
  | not_a_string (ctx1 ctx2 ctx3 : String)
deriving DecidableEq, Repr

/-- What the stubs do, in order of occurrence. -/
inductive event where
  | acquire
  | release
  | startup_exn
  | c_thread_register
  | named_value (name : String)
  | alloc_initialized_string
  | copy_string
  | callback_exn (arg : value)
  | string_length
  | tag_val
  | string_val
  | format_exception
  | printf (line : log_line)
deriving DecidableEq, Repr

/-- The state outside the stubs: the runtime lock and the events so far. -/
structure world where
  held : Bool
  trace : List event
deriving DecidableEq, Repr

/-- Append one event to the trace. -/
def record (e : event) (w : world) : world :=
  { w with trace := w.trace ++ [e] }

/-- How a call ends: blocked for ever on the runtime lock, faulted in the
world `w`, or returned `a` leaving the world `w`. -/
inductive outcome (α : Type) where
  | blocked : outcome α
  | fault (w : world) : outcome α
  | returned (a : α) (w : world) : outcome α
deriving DecidableEq, Repr

/-- Continue after a call that returned; a blocked or faulted call stays so. -/
def outcome.bind {α β : Type} (o : outcome α) (f : α → world → outcome β) : outcome β :=
  match o with
  | .blocked => .blocked
  | .fault w => .fault w
  | .returned a w => f a w

/-- The world a call ends in, when it ends. -/
def outcome.world {α : Type} : outcome α → Option world
  | .blocked => none
  | .fault w => some w
  | .returned _ w => some w

/-- The largest C `int`. -/
def INT_MAX : Int := 2147483647

/-- The C conversion of an `mlsize_t` to `int`: the low 32 bits, read as a
signed number. -/
def int_of_mlsize (n : Nat) : Int :=
  if n % 4294967296 < 2147483648 then ((n % 4294967296 : Nat) : Int)
  else ((n % 4294967296 : Nat) : Int) - 4294967296

/-- The OCaml primitive `caml_acquire_runtime_system`: blocks until the lock is free, then takes
it.  With the lock already held by the caller it blocks for ever (`none`). -/
def caml_acquire_runtime_system (w : world) : Option world :=
  if w.held then none else some { held := true, trace := w.trace ++ [event.acquire] }

/-- The OCaml primitive `caml_release_runtime_system`: the lock is free afterwards. -/
def caml_release_runtime_system (w : world) : world :=
  { held := false, trace := w.trace ++ [event.release] }

/-- The OCaml primitive `Is_exception_result(v)`: a test on the bits of the word `v`. -/
def Is_exception_result (v : value) : Bool := v.is_exception_result

/-- The OCaml primitive `Tag_val(v)`: reads the header of the block. -/
def Tag_val (v : value) (w : world) : Nat × world :=
  (v.tag, record event.tag_val w)

/-- The OCaml primitive `caml_string_length(v)`: reads the header and the last
byte of the block `v` points to.  An exception result is a block pointer with
bit 1 set; the read through it faults. -/
def caml_string_length (v : value) (w : world) : outcome Nat :=
  if v.is_exception_result then outcome.fault (record event.string_length w)
  else outcome.returned v.bytes.length (record event.string_length w)

/-- The OCaml primitive `String_val(v)`: the bytes of the block. -/
def String_val (v : value) (w : world) : List Nat × world :=
  (v.bytes, record event.string_val w)

/-- The OCaml primitive `caml_format_exception(Extract_exception(v))`: reads the exception block.
The text it returns is not represented. -/
def caml_format_exception (_v : value) (w : world) : world :=
  record event.format_exception w

/-- The OCaml primitive `caml_named_value(name)`. -/
def caml_named_value (reg : registry) (name : String) (w : world) :
    Option named_value × world :=
  (reg name, record (event.named_value name) w)

/-- The OCaml primitive `caml_alloc_initialized_string(len, p)`: a fresh string holding the `len`
bytes at `p`, embedded NUL bytes included. -/
def caml_alloc_initialized_string (len : Nat) (p : List Nat) (w : world) : value × world :=
  (string_value (p.take len), record event.alloc_initialized_string w)

/-- The OCaml primitive `caml_copy_string(s)`: a fresh string holding the bytes at `s` up to, and
without, the first NUL byte (`strlen(s)` bytes). -/
def caml_copy_string (s : List Nat) (w : world) : value × world :=
  (string_value (s.takeWhile (fun b => b != 0)), record event.copy_string w)

/-- The OCaml primitive `caml_callback_exn(closure, arg)`. -/
def caml_callback_exn (closure : named_value) (arg : value) (w : world) : value × world :=
  (closure.apply arg, record (event.callback_exn arg) w)

/-- The OCaml primitive `caml_startup_exn(argv)`: boots the runtime, which leaves the lock with the
booting thread, and returns `res`. -/
def caml_startup_exn (res : value) (w : world) : value × world :=
  (res, { held := true, trace := w.trace ++ [event.startup_exn] })

/-- The OCaml primitive `caml_c_thread_register()`. -/
def caml_c_thread_register (w : world) : world :=
  record event.c_thread_register w

/-! ## The stubs -/

/-- The C function `void lock()`. -/
def lock (w : world) : Option world :=
  caml_acquire_runtime_system w

/-- The C function `void unlock()`. -/
def unlock (w : world) : world :=
  caml_release_runtime_system w

/-- The C function `bool check_exception(ctx1, ctx2, ctx3, v)`. -/
def check_exception (ctx1 ctx2 ctx3 : String) (v : value) (w : world) : Bool × world :=
  if Is_exception_result v then
    let w1 := caml_format_exception v w
    let w2 := record (event.printf (log_line.exception_thrown ctx1 ctx2 ctx3)) w1
    (false, unlock w2)
  else
    (true, w)

/-- The C function `bool check_null_closure(ctx1, ctx2, ctx3, v)`. -/
def check_null_closure (ctx1 ctx2 ctx3 : String) (v : Option named_value) (w : world) :
    Bool × world :=
  match v with
  | none =>
    let w1 := record (event.printf (log_line.closure_not_found ctx1 ctx2 ctx3)) w
    (false, unlock w1)
  | some _ => (true, w)

/-- The C function `bool check_string(ctx1, ctx2, ctx3, v)`.  The result of the call to
`check_exception` is dropped, as in the source. -/
def check_string (ctx1 ctx2 ctx3 : String) (v : value) (w : world) : Bool × world :=
  let e := check_exception ctx1 ctx2 ctx3 v w
  let t := Tag_val v e.2
  if t.1 ≠ String_tag then
    let w1 := record (event.printf (log_line.not_a_string ctx1 ctx2 ctx3)) t.2
    (false, unlock w1)
  else
    (true, t.2)

/-- The C function `char* copy_bytes_outside_runtime(value v)`: `length` bytes,
no terminator.  With `int length` negative, `malloc(length)` and `memcpy` get
a size the heap does not hold, and the copy faults. -/
def copy_bytes_outside_runtime (v : value) (w : world) : outcome (Option (List Nat)) :=
  let c := check_string "" "copy_bytes_outside_runtime" "" v w
  if c.1 = false then outcome.returned none c.2
  else
    (caml_string_length v c.2).bind fun n w1 =>
      let length := int_of_mlsize n
      if length < 0 then outcome.fault w1
      else
        let s := String_val v w1
        outcome.returned (some (s.1.take length.toNat)) s.2

/-- The C function `char* copy_string_outside_runtime(ctx1, ctx2, v)`:
`length+1` bytes, the last one NUL.  With `int length` negative the copy faults
as in `copy_bytes_outside_runtime`; with `length = INT_MAX` the sum `length+1`
overflows. -/
def copy_string_outside_runtime (ctx1 ctx2 : String) (v : value) (w : world) :
    outcome (Option (List Nat)) :=
  let c := check_string ctx1 ctx2 "copy_string_outside_runtime" v w
  if c.1 = false then outcome.returned none c.2
  else
    (caml_string_length v c.2).bind fun n w1 =>
      let length := int_of_mlsize n
      if length < 0 ∨ length = INT_MAX then outcome.fault w1
      else
        let s := String_val v w1
        outcome.returned (some (s.1.take length.toNat ++ [0])) s.2

/-- The C function `char* dark_init_ocaml()`, with `res` the result of `caml_startup_exn`. -/
def dark_init_ocaml (res : value) (w : world) : String × world :=
  let w1 := record (event.printf log_line.ocaml_loaded) w
  let s := caml_startup_exn res w1
  let c := check_exception "dark_init_ocaml" "caml_startup_exn" "" s.1 s.2
  let w2 := record (event.printf log_line.registering_main_thread) c.2
  let w3 := caml_c_thread_register w2
  let w4 := caml_release_runtime_system w3
  ("loaded", w4)

/-- The C function `void register_thread()`. -/
def register_thread (w : world) : world :=
  caml_c_thread_register w

/-- The C function `char* call_bin2json(callback_name, bytes, length)`. -/
def call_bin2json (reg : registry) (callback_name : String) (bytes : List Nat) (length : Nat)
    (w : world) : outcome (Option (List Nat)) :=
  match lock w with
  | none => outcome.blocked
  | some w0 =>
    let v := caml_alloc_initialized_string length bytes w0
    let c1 := check_string callback_name "call_bin2json" "caml_alloc_initialized_string" v.1 v.2
    if c1.1 = false then outcome.returned none c1.2
    else
      let n := caml_named_value reg callback_name c1.2
      let c2 := check_null_closure callback_name "call_bin2json" "" n.1 n.2
      match c2.1, n.1 with
      | true, some closure =>
        let c3 := check_exception callback_name "closure" "caml_named_value" closure.val c2.2
        if c3.1 = false then outcome.returned none c3.2
        else
          let result := caml_callback_exn closure v.1 c3.2
          let c4 := check_exception callback_name "result" "caml_callback_exn" result.1 result.2
          if c4.1 = false then outcome.returned none c4.2
          else
            (copy_string_outside_runtime callback_name "call_bin2json" result.1 c4.2).bind
              fun retval w1 => outcome.returned retval (unlock w1)
      | _, _ => outcome.returned none c2.2

/-- The C function `int call_json2bin(callback_name, json, out_bytes)`.
`out_bytes` is what `*out_bytes` holds before the call; a call that returns gives
the `int` it returns and what `*out_bytes` holds afterwards. -/
def call_json2bin (reg : registry) (callback_name : String) (json : List Nat)
    (out_bytes : Option (List Nat)) (w : world) : outcome (Int × Option (List Nat)) :=
  match lock w with
  | none => outcome.blocked
  | some w0 =>
    let n := caml_named_value reg callback_name w0
    let c1 := check_null_closure callback_name "call_json2bin" "" n.1 n.2
    match c1.1, n.1 with
    | true, some closure =>
      let c2 := check_exception callback_name "call_json2bin" "caml_named_value" closure.val c1.2
      if c2.1 = false then outcome.returned (0, out_bytes) c2.2
      else
        let v := caml_copy_string json c2.2
        let c3 := check_string callback_name "call_json2bin" "caml_copy_string" v.1 v.2
        if c3.1 = false then outcome.returned (0, out_bytes) c3.2
        else
          let result := caml_callback_exn closure v.1 c3.2
          (caml_string_length result.1 result.2).bind fun l w1 =>
            let length := int_of_mlsize l
            (copy_bytes_outside_runtime result.1 w1).bind fun copy w2 =>
              outcome.returned (length, copy) (unlock w2)
    | _, _ => outcome.returned (0, out_bytes) c1.2

/-- The C function `const int string_to_string(callback_name, bytesIn, lengthIn,
bytesOut)`.  `bytesOut` is what `*bytesOut` holds before the call; a call that
returns gives the `int` it returns and what `*bytesOut` holds afterwards. -/
def string_to_string (reg : registry) (callback_name : String) (bytesIn : List Nat)
    (lengthIn : Nat) (bytesOut : Option (List Nat)) (w : world) :
    outcome (Int × Option (List Nat)) :=
  match lock w with
  | none => outcome.blocked
  | some w0 =>
    let n := caml_named_value reg callback_name w0
    let c1 := check_null_closure callback_name "string_to_string" "" n.1 n.2
    match c1.1, n.1 with
    | true, some closure =>
      let c2 := check_exception callback_name "string_to_string" "caml_named_value"
        closure.val c1.2
      if c2.1 = false then outcome.returned (0, bytesOut) c2.2
      else
        let v := caml_alloc_initialized_string lengthIn bytesIn c2.2
        let c3 := check_string callback_name "string_to_string" "copy_string" v.1 v.2
        if c3.1 = false then outcome.returned (0, bytesOut) c3.2
        else
          let result := caml_callback_exn closure v.1 c3.2
          let c4 := check_string callback_name "string_to_string" "callback_exn" result.1 result.2
          if c4.1 = false then outcome.returned (0, bytesOut) c4.2
          else
            (copy_string_outside_runtime callback_name "string_to_string" result.1 c4.2).bind
              fun retval w1 =>
                (caml_string_length result.1 w1).bind fun l w2 =>
                  let lengthOut := int_of_mlsize l
                  outcome.returned (lengthOut, retval) (unlock w2)
    | _, _ => outcome.returned (0, bytesOut) c1.2

/-- The C function `char* digest()`. -/
def digest (reg : registry) (w : world) : outcome (Option (List Nat)) :=
  match lock w with
  | none => outcome.blocked
  | some w0 =>
    let n := caml_named_value reg "digest" w0
    let c1 := check_null_closure "digest" "" "" n.1 n.2
    match c1.1, n.1 with
    | true, some digest_value =>
      (copy_string_outside_runtime "digest" "caml_named_value" digest_value.val c1.2).bind
        fun result w1 => outcome.returned result (unlock w1)
    | _, _ => outcome.returned none c1.2

/-! ## The wrappers exported to the caller -/

/-- The C function `user_fn_bin2json(bytes, length)`. -/
def user_fn_bin2json (reg : registry) (bytes : List Nat) (length : Nat) (w : world) :=
  call_bin2json reg "user_fn_bin2json" bytes length w

/-- The C function `user_tipe_bin2json(bytes, length)`. -/
def user_tipe_bin2json (reg : registry) (bytes : List Nat) (length : Nat) (w : world) :=
  call_bin2json reg "user_tipe_bin2json" bytes length w

/-- The C function `handler_bin2json(bytes, length)`. -/
def handler_bin2json (reg : registry) (bytes : List Nat) (length : Nat) (w : world) :=
  call_bin2json reg "handler_bin2json" bytes length w

/-- The C function `db_bin2json(bytes, length)`. -/
def db_bin2json (reg : registry) (bytes : List Nat) (length : Nat) (w : world) :=
  call_bin2json reg "db_bin2json" bytes length w

/-- The C function `oplist_bin2json(bytes, length)`. -/
def oplist_bin2json (reg : registry) (bytes : List Nat) (length : Nat) (w : world) :=
  call_bin2json reg "oplist_bin2json" bytes length w

/-- The C function `pos_bin2json(bytes, length)`. -/
def pos_bin2json (reg : registry) (bytes : List Nat) (length : Nat) (w : world) :=
  call_bin2json reg "pos_bin2json" bytes length w

/-- The C function `expr_bin2json(bytes, length)`. -/
def expr_bin2json (reg : registry) (bytes : List Nat) (length : Nat) (w : world) :=
  call_bin2json reg "expr_bin2json" bytes length w

/-- The C function `expr_tlid_pair_bin2json(bytes, length)`. -/
def expr_tlid_pair_bin2json (reg : registry) (bytes : List Nat) (length : Nat) (w : world) :=
  call_bin2json reg "expr_tlid_pair_bin2json" bytes length w

/-- The C function `user_fn_json2bin(json, out_bytes)`. -/
def user_fn_json2bin (reg : registry) (json : List Nat) (out_bytes : Option (List Nat))
    (w : world) :=
  call_json2bin reg "user_fn_json2bin" json out_bytes w

/-- The C function `user_tipe_json2bin(json, out_bytes)`. -/
def user_tipe_json2bin (reg : registry) (json : List Nat) (out_bytes : Option (List Nat))
    (w : world) :=
  call_json2bin reg "user_tipe_json2bin" json out_bytes w

/-- The C function `handler_json2bin(json, out_bytes)`. -/
def handler_json2bin (reg : registry) (json : List Nat) (out_bytes : Option (List Nat))
    (w : world) :=
  call_json2bin reg "handler_json2bin" json out_bytes w

/-- The C function `db_json2bin(json, out_bytes)`. -/
def db_json2bin (reg : registry) (json : List Nat) (out_bytes : Option (List Nat))
    (w : world) :=
  call_json2bin reg "db_json2bin" json out_bytes w

/-- The C function `oplist_json2bin(json, out_bytes)`. -/
def oplist_json2bin (reg : registry) (json : List Nat) (out_bytes : Option (List Nat))
    (w : world) :=
  call_json2bin reg "oplist_json2bin" json out_bytes w

/-- The C function `pos_json2bin(json, out_bytes)`. -/
def pos_json2bin (reg : registry) (json : List Nat) (out_bytes : Option (List Nat))
    (w : world) :=
  call_json2bin reg "pos_json2bin" json out_bytes w

/-- The C function `expr_json2bin(json, out_bytes)`. -/
def expr_json2bin (reg : registry) (json : List Nat) (out_bytes : Option (List Nat))
    (w : world) :=
  call_json2bin reg "expr_json2bin" json out_bytes w

/-- The C function `expr_tlid_pair_json2bin(json, out_bytes)`. -/
def expr_tlid_pair_json2bin (reg : registry) (json : List Nat) (out_bytes : Option (List Nat))
    (w : world) :=
  call_json2bin reg "expr_tlid_pair_json2bin" json out_bytes w

/-- The C function `to_internal_roundtrippable_v0(bytesIn, lengthIn, bytesOut)`. -/
def to_internal_roundtrippable_v0 (reg : registry) (bytesIn : List Nat) (lengthIn : Nat)
    (bytesOut : Option (List Nat)) (w : world) :=
  string_to_string reg "to_internal_roundtrippable_v0" bytesIn lengthIn bytesOut w

/-- The C function `of_internal_roundtrippable_v0(bytesIn, lengthIn, bytesOut)`. -/
def of_internal_roundtrippable_v0 (reg : registry) (bytesIn : List Nat) (lengthIn : Nat)
    (bytesOut : Option (List Nat)) (w : world) :=
  string_to_string reg "of_internal_roundtrippable_v0" bytesIn lengthIn bytesOut w

/-- The exported `to_internal_queryable_v0(bytesIn, lengthIn, bytesOut)`. -/
def to_internal_queryable_v0 (reg : registry) (bytesIn : List Nat) (lengthIn : Nat)
    (bytesOut : Option (List Nat)) (w : world) :=
  string_to_string reg "to_internal_queryable_v0" bytesIn lengthIn bytesOut w

/-- The exported `to_internal_queryable_v1(bytesIn, lengthIn, bytesOut)`. -/
def to_internal_queryable_v1 (reg : registry) (bytesIn : List Nat) (lengthIn : Nat)
    (bytesOut : Option (List Nat)) (w : world) :=
  string_to_string reg "to_internal_queryable_v1" bytesIn lengthIn bytesOut w

/-- The exported `of_internal_queryable_v0(bytesIn, lengthIn, bytesOut)`. -/
def of_internal_queryable_v0 (reg : registry) (bytesIn : List Nat) (lengthIn : Nat)
    (bytesOut : Option (List Nat)) (w : world) :=
  string_to_string reg "of_internal_queryable_v0" bytesIn lengthIn bytesOut w

/-- The exported `of_internal_queryable_v1(bytesIn, lengthIn, bytesOut)`. -/
def of_internal_queryable_v1 (reg : registry) (bytesIn : List Nat) (lengthIn : Nat)
    (bytesOut : Option (List Nat)) (w : world) :=
  string_to_string reg "of_internal_queryable_v1" bytesIn lengthIn bytesOut w

/-- The exported `to_developer_repr_v0(bytesIn, lengthIn, bytesOut)`. -/
def to_developer_repr_v0 (reg : registry) (bytesIn : List Nat) (lengthIn : Nat)
    (bytesOut : Option (List Nat)) (w : world) :=
  string_to_string reg "to_developer_repr_v0" bytesIn lengthIn bytesOut w

/-- The exported `to_enduser_readable_text_v0(bytesIn, lengthIn, bytesOut)`. -/
def to_enduser_readable_text_v0 (reg : registry) (bytesIn : List Nat) (lengthIn : Nat)
    (bytesOut : Option (List Nat)) (w : world) :=
  string_to_string reg "to_enduser_readable_text_v0" bytesIn lengthIn bytesOut w

/-- The exported `to_pretty_machine_json_v1(bytesIn, lengthIn, bytesOut)`. -/
def to_pretty_machine_json_v1 (reg : registry) (bytesIn : List Nat) (lengthIn : Nat)
    (bytesOut : Option (List Nat)) (w : world) :=
  string_to_string reg "to_pretty_machine_json_v1" bytesIn lengthIn bytesOut w

/-- The exported `to_url_string(bytesIn, lengthIn, bytesOut)`. -/
def to_url_string (reg : registry) (bytesIn : List Nat) (lengthIn : Nat)
    (bytesOut : Option (List Nat)) (w : world) :=
  string_to_string reg "to_url_string" bytesIn lengthIn bytesOut w

/-- The exported `to_hashable_repr(bytesIn, lengthIn, bytesOut)`. -/
def to_hashable_repr (reg : registry) (bytesIn : List Nat) (lengthIn : Nat)
    (bytesOut : Option (List Nat)) (w : world) :=
  string_to_string reg "to_hashable_repr" bytesIn lengthIn bytesOut w

/-- The exported `of_unknown_json_v1(bytesIn, lengthIn, bytesOut)`. -/
def of_unknown_json_v1 (reg : registry) (bytesIn : List Nat) (lengthIn : Nat)
    (bytesOut : Option (List Nat)) (w : world) :=
  string_to_string reg "of_unknown_json_v1" bytesIn lengthIn bytesOut w

/-- The exported `hash_v0(bytesIn, lengthIn, bytesOut)`. -/
def hash_v0 (reg : registry) (bytesIn : List Nat) (lengthIn : Nat)
    (bytesOut : Option (List Nat)) (w : world) :=
  string_to_string reg "hash_v0" bytesIn lengthIn bytesOut w

/-- The exported `hash_v1(bytesIn, lengthIn, bytesOut)`. -/
def hash_v1 (reg : registry) (bytesIn : List Nat) (lengthIn : Nat)
    (bytesOut : Option (List Nat)) (w : world) :=
  string_to_string reg "hash_v1" bytesIn lengthIn bytesOut w

/-- The C function `execute(bytesIn, lengthIn, bytesOut)`. -/
def execute (reg : registry) (bytesIn : List Nat) (lengthIn : Nat)
    (bytesOut : Option (List Nat)) (w : world) :=
  string_to_string reg "execute" bytesIn lengthIn bytesOut w

/-! ## Reading a trace -/

/-- The eight payload kinds of the bin2json and json2bin families. -/
inductive payload_kind where
  | user_fn | user_tipe | handler | db | oplist | pos | expr | expr_tlid_pair
deriving DecidableEq, Repr

/-- The exported bin2json function of a payload kind. -/
def payload_kind.bin2json (k : payload_kind) (reg : registry) (bytes : List Nat)
    (length : Nat) (w : world) : outcome (Option (List Nat)) :=
  match k with
  | .user_fn => user_fn_bin2json reg bytes length w
  | .user_tipe => user_tipe_bin2json reg bytes length w
  | .handler => handler_bin2json reg bytes length w
  | .db => db_bin2json reg bytes length w
  | .oplist => oplist_bin2json reg bytes length w
  | .pos => pos_bin2json reg bytes length w
  | .expr => expr_bin2json reg bytes length w
  | .expr_tlid_pair => expr_tlid_pair_bin2json reg bytes length w

/-- The exported json2bin function of a payload kind. -/
def payload_kind.json2bin (k : payload_kind) (reg : registry) (json : List Nat)
    (out_bytes : Option (List Nat)) (w : world) : outcome (Int × Option (List Nat)) :=
  match k with
  | .user_fn => user_fn_json2bin reg json out_bytes w
  | .user_tipe => user_tipe_json2bin reg json out_bytes w
  | .handler => handler_json2bin reg json out_bytes w
  | .db => db_json2bin reg json out_bytes w
  | .oplist => oplist_json2bin reg json out_bytes w
  | .pos => pos_json2bin reg json out_bytes w
  | .expr => expr_json2bin reg json out_bytes w
  | .expr_tlid_pair => expr_tlid_pair_json2bin reg json out_bytes w

/-- The callback name the bin2json wrapper of a payload kind passes on. -/
def payload_kind.bin2json_name : payload_kind → String
  | .user_fn => "user_fn_bin2json"
  | .user_tipe => "user_tipe_bin2json"
  | .handler => "handler_bin2json"
  | .db => "db_bin2json"
  | .oplist => "oplist_bin2json"
  | .pos => "pos_bin2json"
  | .expr => "expr_bin2json"
  | .expr_tlid_pair => "expr_tlid_pair_bin2json"

/-- The callback name the json2bin wrapper of a payload kind passes on. -/
def payload_kind.json2bin_name : payload_kind → String
  | .user_fn => "user_fn_json2bin"
  | .user_tipe => "user_tipe_json2bin"
  | .handler => "handler_json2bin"
  | .db => "db_json2bin"
  | .oplist => "oplist_json2bin"
  | .pos => "pos_json2bin"
  | .expr => "expr_json2bin"
  | .expr_tlid_pair => "expr_tlid_pair_json2bin"

/-- Number of `lock()` calls in a trace. -/
def count_lock (es : List event) : Nat := es.count event.acquire

/-- Number of `unlock()` calls (releases of the runtime lock) in a trace. -/
def count_unlock (es : List event) : Nat := es.count event.release

/-- Events that read or write the embedded runtime. -/
def event.is_runtime_access : event → Bool
  | .named_value _ => true
  | .alloc_initialized_string => true
  | .copy_string => true
  | .callback_exn _ => true
  | .string_length => true
  | .tag_val => true
  | .string_val => true
  | .format_exception => true
  | _ => false

/-- Events that invoke a callback. -/
def event.is_callback : event → Bool
  | .callback_exn _ => true
  | _ => false

/-- Whether every runtime access of the trace happens with the lock held,
when the trace starts with the lock in state `held`. -/
def accesses_under_lock (held : Bool) : List event → Bool
  | [] => true
  | event.acquire :: es => accesses_under_lock true es
  | event.release :: es => accesses_under_lock false es
  | e :: es => (!e.is_runtime_access || held) && accesses_under_lock held es

/-- The first context field of a warning; `none` for the two startup lines. -/
def log_line.ctx1 : log_line → Option String
  | .exception_thrown c _ _ => some c
  | .closure_not_found c _ _ => some c
  | .not_a_string c _ _ => some c
  | _ => none

/-- The warnings of a trace. -/
def warnings : List event → List log_line
  | [] => []
  | event.printf l :: es => l :: warnings es
  | _ :: es => warnings es

/-! ## Concrete runtimes used to evaluate the stubs -/

/-- The world before any gateway call: lock free, nothing has happened. -/
def idle : world := { held := false, trace := [] }

/-- A closure block, as `*caml_named_value(name)` shows it. -/
def closure_block : value :=
  { is_exception_result := false, tag := Closure_tag, bytes := [] }

/-- A callback that returns its argument. -/
def echo : named_value :=
  { val := closure_block, apply := fun v => string_value v.bytes }

/-- A callback that adds one to every byte of its argument. -/
def shift_up : named_value :=
  { val := closure_block, apply := fun v => string_value (v.bytes.map (fun b => b + 1)) }

/-- A callback that subtracts one from every byte of its argument. -/
def shift_down : named_value :=
  { val := closure_block, apply := fun v => string_value (v.bytes.map (fun b => b - 1)) }

/-- An exception result, where `Tag_val` reads the tag `0`. -/
def raised : value :=
  { is_exception_result := true, tag := 0, bytes := [] }

/-- A callback that raises on every argument. -/
def raising : named_value :=
  { val := closure_block, apply := fun _ => raised }

/-- A block of tag `0` with one field, the integer `3` (the word `7`): no
exception result and no string.  Read as a string it shows seven bytes. -/
def tuple_block : value :=
  { is_exception_result := false, tag := 0, bytes := [7, 0, 0, 0, 0, 0, 0] }

/-- A callback that returns a tuple on every argument. -/
def returning_tuple : named_value :=
  { val := closure_block, apply := fun _ => tuple_block }

/-- A registry with succeeding, raising and ill-typed callbacks; every other
name, `"pos_bin2json"` for one, is not registered. -/
def sample_registry : registry := fun name =>
  if name = "handler_bin2json" then some echo
  else if name = "handler_json2bin" then some echo
  else if name = "to_internal_roundtrippable_v0" then some echo
  else if name = "of_internal_roundtrippable_v0" then some echo
  else if name = "user_fn_bin2json" then some shift_up
  else if name = "user_fn_json2bin" then some shift_down
  else if name = "digest" then some { val := string_value [100, 49], apply := fun v => v }
  else if name = "execute" then some raising
  else if name = "db_bin2json" then some raising
  else if name = "db_json2bin" then some raising
  else if name = "expr_bin2json" then some returning_tuple
  else if name = "expr_json2bin" then some returning_tuple
  else if name = "hash_v0" then some returning_tuple
  else none

/-- A registry in which every payload kind has `shift_up` as its bin2json
callback and `shift_down` as its json2bin callback. -/
def shift_registry : registry := fun name =>
  if name ∈ ["user_fn_bin2json", "user_tipe_bin2json", "handler_bin2json", "db_bin2json",
      "oplist_bin2json", "pos_bin2json", "expr_bin2json", "expr_tlid_pair_bin2json"] then
    some shift_up
  else if name ∈ ["user_fn_json2bin", "user_tipe_json2bin", "handler_json2bin", "db_json2bin",
      "oplist_json2bin", "pos_json2bin", "expr_json2bin", "expr_tlid_pair_json2bin"] then
    some shift_down
  else none

/-- A registry in which no name is registered. -/
def empty_registry : registry := fun _ => none


/-! ## The paths of the four gateway operations -/

theorem int_of_mlsize_of_le (n : Nat) (h : (n : Int) ≤ INT_MAX) : int_of_mlsize n = (n : Int) := by
  have hn : n < 2147483648 := by
    unfold INT_MAX at h
    omega
  have hmod : n % 4294967296 = n := Nat.mod_eq_of_lt (by omega)
  unfold int_of_mlsize
  rw [hmod]
  simp [hn]

theorem copy_string_outside_runtime_string (ctx1 ctx2 : String) (s : List Nat) (w : world)
    (h : (s.length : Int) < INT_MAX) :
    copy_string_outside_runtime ctx1 ctx2 (string_value s) w =
      outcome.returned (some (s ++ [0]))
        { held := w.held, trace := w.trace ++
          [event.tag_val, event.string_length, event.string_val] } := by
  have hi : int_of_mlsize s.length = (s.length : Int) := int_of_mlsize_of_le _ (le_of_lt h)
  have h1 : ¬ ((s.length : Int) < 0) := by omega
  have h2 : ¬ ((s.length : Int) = INT_MAX) := by omega
  simp [copy_string_outside_runtime, check_string, check_exception, Is_exception_result,
    Tag_val, record, caml_string_length, String_val, string_value, outcome.bind, hi, h2]

theorem copy_bytes_outside_runtime_string (s : List Nat) (w : world)
    (h : (s.length : Int) ≤ INT_MAX) :
    copy_bytes_outside_runtime (string_value s) w =
      outcome.returned (some s)
        { held := w.held, trace := w.trace ++
          [event.tag_val, event.string_length, event.string_val] } := by
  have hi : int_of_mlsize s.length = (s.length : Int) := int_of_mlsize_of_le _ h
  simp [copy_bytes_outside_runtime, check_string, check_exception, Is_exception_result,
    Tag_val, record, caml_string_length, String_val, string_value, outcome.bind, hi]

theorem call_bin2json_missing (reg : registry) (name : String) (bytes : List Nat) (length : Nat)
    (w : world) (hw : w.held = false) (hreg : reg name = none) :
    call_bin2json reg name bytes length w =
      outcome.returned none { held := false, trace := w.trace ++
        [event.acquire, event.alloc_initialized_string, event.tag_val, event.named_value name,
         event.printf (log_line.closure_not_found name "call_bin2json" ""), event.release] } := by
  simp [call_bin2json, lock, unlock, caml_acquire_runtime_system, caml_release_runtime_system,
    caml_alloc_initialized_string, check_string, check_exception, Is_exception_result,
    string_value, Tag_val, record, caml_named_value, check_null_closure, hw, hreg]

theorem call_bin2json_raised (reg : registry) (name : String) (bytes : List Nat) (length : Nat)
    (w : world) (c : named_value) (hw : w.held = false) (hreg : reg name = some c)
    (hc : c.val.is_exception_result = false)
    (hexn : (c.apply (string_value (bytes.take length))).is_exception_result = true) :
    call_bin2json reg name bytes length w =
      outcome.returned none { held := false, trace := w.trace ++
        [event.acquire, event.alloc_initialized_string, event.tag_val, event.named_value name,
         event.callback_exn (string_value (bytes.take length)), event.format_exception,
         event.printf (log_line.exception_thrown name "result" "caml_callback_exn"),
         event.release] } := by
  simp [call_bin2json, lock, unlock, caml_acquire_runtime_system, caml_release_runtime_system,
    caml_alloc_initialized_string, check_string, check_exception, Is_exception_result,
    Tag_val, record, caml_named_value, check_null_closure, caml_callback_exn,
    caml_format_exception, hw, hreg, hc, hexn]
  simp [string_value]

theorem call_bin2json_not_string (reg : registry) (name : String) (bytes : List Nat)
    (length : Nat) (w : world) (c : named_value) (hw : w.held = false)
    (hreg : reg name = some c) (hc : c.val.is_exception_result = false)
    (hexn : (c.apply (string_value (bytes.take length))).is_exception_result = false)
    (htag : (c.apply (string_value (bytes.take length))).tag ≠ String_tag) :
    call_bin2json reg name bytes length w =
      outcome.returned none { held := false, trace := w.trace ++
        [event.acquire, event.alloc_initialized_string, event.tag_val, event.named_value name,
         event.callback_exn (string_value (bytes.take length)), event.tag_val,
         event.printf (log_line.not_a_string name "call_bin2json" "copy_string_outside_runtime"),
         event.release, event.release] } := by
  simp [call_bin2json, lock, unlock, caml_acquire_runtime_system, caml_release_runtime_system,
    caml_alloc_initialized_string, check_string, check_exception, Is_exception_result,
    Tag_val, record, caml_named_value, check_null_closure, caml_callback_exn,
    copy_string_outside_runtime, outcome.bind, hw, hreg, hc, hexn, htag]
  simp [string_value]

theorem call_bin2json_string (reg : registry) (name : String) (bytes : List Nat) (length : Nat)
    (w : world) (c : named_value) (s : List Nat) (hw : w.held = false)
    (hreg : reg name = some c) (hc : c.val.is_exception_result = false)
    (hs : c.apply (string_value (bytes.take length)) = string_value s) :
    call_bin2json reg name bytes length w =
      if int_of_mlsize s.length < 0 ∨ int_of_mlsize s.length = INT_MAX then
        outcome.fault { held := true, trace := w.trace ++
          [event.acquire, event.alloc_initialized_string, event.tag_val, event.named_value name,
           event.callback_exn (string_value (bytes.take length)), event.tag_val,
           event.string_length] }
      else
        outcome.returned (some (s.take (int_of_mlsize s.length).toNat ++ [0]))
          { held := false, trace := w.trace ++
          [event.acquire, event.alloc_initialized_string, event.tag_val, event.named_value name,
           event.callback_exn (string_value (bytes.take length)), event.tag_val,
           event.string_length, event.string_val, event.release] } := by
  by_cases hcond : int_of_mlsize s.length < 0 ∨ int_of_mlsize s.length = INT_MAX
  · simp [call_bin2json, lock, unlock, caml_acquire_runtime_system,
      caml_release_runtime_system, caml_alloc_initialized_string, check_string,
      check_exception, Is_exception_result, Tag_val, record, caml_named_value,
      check_null_closure, caml_callback_exn, copy_string_outside_runtime, caml_string_length,
      String_val, outcome.bind, hw, hreg, hc, hs]
    simp [string_value, hcond]
  · simp [call_bin2json, lock, unlock, caml_acquire_runtime_system,
      caml_release_runtime_system, caml_alloc_initialized_string, check_string,
      check_exception, Is_exception_result, Tag_val, record, caml_named_value,
      check_null_closure, caml_callback_exn, copy_string_outside_runtime, caml_string_length,
      String_val, outcome.bind, hw, hreg, hc, hs]
    simp [string_value, hcond]

theorem call_bin2json_success (reg : registry) (name : String) (bytes : List Nat) (length : Nat)
    (w : world) (c : named_value) (s : List Nat) (hw : w.held = false)
    (hreg : reg name = some c) (hc : c.val.is_exception_result = false)
    (hs : c.apply (string_value (bytes.take length)) = string_value s)
    (hlen : (s.length : Int) < INT_MAX) :
    call_bin2json reg name bytes length w =
      outcome.returned (some (s ++ [0])) { held := false, trace := w.trace ++
        [event.acquire, event.alloc_initialized_string, event.tag_val, event.named_value name,
         event.callback_exn (string_value (bytes.take length)), event.tag_val,
         event.string_length, event.string_val, event.release] } := by
  have hi : int_of_mlsize s.length = (s.length : Int) := int_of_mlsize_of_le _ (le_of_lt hlen)
  have h1 : ¬ ((s.length : Int) < 0) := by omega
  have h2 : ¬ ((s.length : Int) = INT_MAX) := by omega
  rw [call_bin2json_string reg name bytes length w c s hw hreg hc hs]
  simp [hi, h2]

theorem call_json2bin_missing (reg : registry) (name : String) (json : List Nat)
    (out_bytes : Option (List Nat)) (w : world) (hw : w.held = false) (hreg : reg name = none) :
    call_json2bin reg name json out_bytes w =
      outcome.returned (0, out_bytes) { held := false, trace := w.trace ++
        [event.acquire, event.named_value name,
         event.printf (log_line.closure_not_found name "call_json2bin" ""), event.release] } := by
  simp [call_json2bin, lock, unlock, caml_acquire_runtime_system, caml_release_runtime_system,
    record, caml_named_value, check_null_closure, hw, hreg]

theorem call_json2bin_success (reg : registry) (name : String) (json : List Nat)
    (out_bytes : Option (List Nat)) (w : world) (c : named_value) (s : List Nat)
    (hw : w.held = false) (hreg : reg name = some c) (hc : c.val.is_exception_result = false)
    (hs : c.apply (string_value (json.takeWhile (fun b => b != 0))) = string_value s)
    (hlen : (s.length : Int) ≤ INT_MAX) :
    call_json2bin reg name json out_bytes w =
      outcome.returned ((s.length : Int), some s) { held := false, trace := w.trace ++
        [event.acquire, event.named_value name, event.copy_string, event.tag_val,
         event.callback_exn (string_value (json.takeWhile (fun b => b != 0))),
         event.string_length, event.tag_val, event.string_length, event.string_val,
         event.release] } := by
  have hi : int_of_mlsize s.length = (s.length : Int) := int_of_mlsize_of_le _ hlen
  have h1 : ¬ ((s.length : Int) < 0) := by omega
  simp [call_json2bin, lock, unlock, caml_acquire_runtime_system, caml_release_runtime_system,
    caml_copy_string, check_string, check_exception, Is_exception_result,
    Tag_val, record, caml_named_value, check_null_closure, caml_callback_exn,
    copy_bytes_outside_runtime, caml_string_length, String_val, outcome.bind,
    hw, hreg, hc, hs]
  simp [string_value, hi, if_neg h1]

theorem call_json2bin_raised (reg : registry) (name : String) (json : List Nat)
    (out_bytes : Option (List Nat)) (w : world) (c : named_value) (hw : w.held = false)
    (hreg : reg name = some c) (hc : c.val.is_exception_result = false)
    (hexn : (c.apply (string_value (json.takeWhile (fun b => b != 0)))).is_exception_result
      = true) :
    call_json2bin reg name json out_bytes w =
      outcome.fault { held := true, trace := w.trace ++
        [event.acquire, event.named_value name, event.copy_string, event.tag_val,
         event.callback_exn (string_value (json.takeWhile (fun b => b != 0))),
         event.string_length] } := by
  simp [call_json2bin, lock, unlock, caml_acquire_runtime_system, caml_release_runtime_system,
    caml_copy_string, check_string, check_exception, Is_exception_result,
    Tag_val, record, caml_named_value, check_null_closure, caml_callback_exn,
    caml_string_length, outcome.bind, hw, hreg, hc, hexn]
  simp [string_value]

theorem call_json2bin_not_string (reg : registry) (name : String) (json : List Nat)
    (out_bytes : Option (List Nat)) (w : world) (c : named_value) (hw : w.held = false)
    (hreg : reg name = some c) (hc : c.val.is_exception_result = false)
    (hexn : (c.apply (string_value (json.takeWhile (fun b => b != 0)))).is_exception_result
      = false)
    (htag : (c.apply (string_value (json.takeWhile (fun b => b != 0)))).tag ≠ String_tag) :
    call_json2bin reg name json out_bytes w =
      outcome.returned
        (int_of_mlsize (c.apply (string_value (json.takeWhile (fun b => b != 0)))).bytes.length,
          none)
        { held := false, trace := w.trace ++
        [event.acquire, event.named_value name, event.copy_string, event.tag_val,
         event.callback_exn (string_value (json.takeWhile (fun b => b != 0))),
         event.string_length, event.tag_val,
         event.printf (log_line.not_a_string "" "copy_bytes_outside_runtime" ""),
         event.release, event.release] } := by
  simp [call_json2bin, lock, unlock, caml_acquire_runtime_system, caml_release_runtime_system,
    caml_copy_string, check_string, check_exception, Is_exception_result,
    Tag_val, record, caml_named_value, check_null_closure, caml_callback_exn,
    copy_bytes_outside_runtime, caml_string_length, outcome.bind,
    hw, hreg, hc, hexn, htag]
  simp [string_value]

theorem string_to_string_missing (reg : registry) (name : String) (bytesIn : List Nat)
    (lengthIn : Nat) (bytesOut : Option (List Nat)) (w : world) (hw : w.held = false)
    (hreg : reg name = none) :
    string_to_string reg name bytesIn lengthIn bytesOut w =
      outcome.returned (0, bytesOut) { held := false, trace := w.trace ++
        [event.acquire, event.named_value name,
         event.printf (log_line.closure_not_found name "string_to_string" ""),
         event.release] } := by
  simp [string_to_string, lock, unlock, caml_acquire_runtime_system,
    caml_release_runtime_system, record, caml_named_value, check_null_closure, hw, hreg]

theorem string_to_string_success (reg : registry) (name : String) (bytesIn : List Nat)
    (lengthIn : Nat) (bytesOut : Option (List Nat)) (w : world) (c : named_value)
    (s : List Nat) (hw : w.held = false) (hreg : reg name = some c)
    (hc : c.val.is_exception_result = false)
    (hs : c.apply (string_value (bytesIn.take lengthIn)) = string_value s)
    (hlen : (s.length : Int) < INT_MAX) :
    string_to_string reg name bytesIn lengthIn bytesOut w =
      outcome.returned ((s.length : Int), some (s ++ [0])) { held := false, trace := w.trace ++
        [event.acquire, event.named_value name, event.alloc_initialized_string, event.tag_val,
         event.callback_exn (string_value (bytesIn.take lengthIn)), event.tag_val,
         event.tag_val, event.string_length, event.string_val, event.string_length,
         event.release] } := by
  have hi : int_of_mlsize s.length = (s.length : Int) := int_of_mlsize_of_le _ (le_of_lt hlen)
  have h1 : ¬ ((s.length : Int) < 0) := by omega
  have h2 : ¬ ((s.length : Int) = INT_MAX) := by omega
  have h3 : ¬ ((s.length : Int) < 0 ∨ (s.length : Int) = INT_MAX) := by omega
  simp [string_to_string, lock, unlock, caml_acquire_runtime_system,
    caml_release_runtime_system, caml_alloc_initialized_string, check_string, check_exception,
    Is_exception_result, Tag_val, record, caml_named_value, check_null_closure,
    caml_callback_exn, copy_string_outside_runtime, caml_string_length, String_val,
    outcome.bind, hw, hreg, hc, hs]
  simp [string_value, hi, if_neg h3]

theorem string_to_string_raised (reg : registry) (name : String) (bytesIn : List Nat)
    (lengthIn : Nat) (bytesOut : Option (List Nat)) (w : world) (c : named_value)
    (hw : w.held = false) (hreg : reg name = some c) (hc : c.val.is_exception_result = false)
    (hexn : (c.apply (string_value (bytesIn.take lengthIn))).is_exception_result = true)
    (htag : (c.apply (string_value (bytesIn.take lengthIn))).tag ≠ String_tag) :
    string_to_string reg name bytesIn lengthIn bytesOut w =
      outcome.returned (0, bytesOut) { held := false, trace := w.trace ++
        [event.acquire, event.named_value name, event.alloc_initialized_string, event.tag_val,
         event.callback_exn (string_value (bytesIn.take lengthIn)), event.format_exception,
         event.printf (log_line.exception_thrown name "string_to_string" "callback_exn"),
         event.release, event.tag_val,
         event.printf (log_line.not_a_string name "string_to_string" "callback_exn"),
         event.release] } := by
  simp [string_to_string, lock, unlock, caml_acquire_runtime_system,
    caml_release_runtime_system, caml_alloc_initialized_string, check_string,
    check_exception, Is_exception_result, Tag_val, record, caml_named_value,
    check_null_closure, caml_callback_exn, caml_format_exception, hw, hreg, hc, hexn, htag]
  simp [string_value]

theorem string_to_string_raised_string_tag (reg : registry) (name : String)
    (bytesIn : List Nat) (lengthIn : Nat) (bytesOut : Option (List Nat)) (w : world)
    (c : named_value) (hw : w.held = false) (hreg : reg name = some c)
    (hc : c.val.is_exception_result = false)
    (hexn : (c.apply (string_value (bytesIn.take lengthIn))).is_exception_result = true)
    (htag : (c.apply (string_value (bytesIn.take lengthIn))).tag = String_tag) :
    string_to_string reg name bytesIn lengthIn bytesOut w =
      outcome.fault { held := false, trace := w.trace ++
        [event.acquire, event.named_value name, event.alloc_initialized_string, event.tag_val,
         event.callback_exn (string_value (bytesIn.take lengthIn)), event.format_exception,
         event.printf (log_line.exception_thrown name "string_to_string" "callback_exn"),
         event.release, event.tag_val, event.format_exception,
         event.printf (log_line.exception_thrown name "string_to_string"
           "copy_string_outside_runtime"),
         event.release, event.tag_val, event.string_length] } := by
  simp [string_to_string, lock, unlock, caml_acquire_runtime_system,
    caml_release_runtime_system, caml_alloc_initialized_string, check_string,
    check_exception, Is_exception_result, Tag_val, record, caml_named_value,
    check_null_closure, caml_callback_exn, copy_string_outside_runtime, caml_string_length,
    caml_format_exception, outcome.bind, hw, hreg, hc, hexn, htag]
  simp [string_value]

theorem digest_missing (reg : registry) (w : world) (hw : w.held = false)
    (hreg : reg "digest" = none) :
    digest reg w =
      outcome.returned none { held := false, trace := w.trace ++
        [event.acquire, event.named_value "digest",
         event.printf (log_line.closure_not_found "digest" "" ""), event.release] } := by
  simp [digest, lock, unlock, caml_acquire_runtime_system, caml_release_runtime_system,
    record, caml_named_value, check_null_closure, hw, hreg]

theorem digest_success (reg : registry) (w : world) (d : named_value) (s : List Nat)
    (hw : w.held = false) (hreg : reg "digest" = some d) (hs : d.val = string_value s)
    (hlen : (s.length : Int) < INT_MAX) :
    digest reg w =
      outcome.returned (some (s ++ [0])) { held := false, trace := w.trace ++
        [event.acquire, event.named_value "digest", event.tag_val, event.string_length,
         event.string_val, event.release] } := by
  have hi : int_of_mlsize s.length = (s.length : Int) := int_of_mlsize_of_le _ (le_of_lt hlen)
  have h1 : ¬ ((s.length : Int) < 0) := by omega
  have h2 : ¬ ((s.length : Int) = INT_MAX) := by omega
  have h3 : ¬ ((s.length : Int) < 0 ∨ (s.length : Int) = INT_MAX) := by omega
  simp [digest, lock, unlock, caml_acquire_runtime_system, caml_release_runtime_system,
    check_string, check_exception, Is_exception_result, Tag_val, record, caml_named_value,
    check_null_closure, copy_string_outside_runtime, caml_string_length, String_val,
    outcome.bind, hw, hreg, hs]
  simp [string_value, hi, if_neg h3]

theorem digest_not_string (reg : registry) (w : world) (d : named_value)
    (hw : w.held = false) (hreg : reg "digest" = some d)
    (hexn : d.val.is_exception_result = false) (htag : d.val.tag ≠ String_tag) :
    digest reg w =
      outcome.returned none { held := false, trace := w.trace ++
        [event.acquire, event.named_value "digest", event.tag_val,
         event.printf (log_line.not_a_string "digest" "caml_named_value"
           "copy_string_outside_runtime"),
         event.release, event.release] } := by
  simp [digest, lock, unlock, caml_acquire_runtime_system, caml_release_runtime_system,
    check_string, check_exception, Is_exception_result, Tag_val, record, caml_named_value,
    check_null_closure, copy_string_outside_runtime, outcome.bind, hw, hreg, hexn, htag]

theorem takeWhile_append_nul (s : List Nat) (h : 0 ∉ s) :
    (s ++ [0]).takeWhile (fun b => b != 0) = s := by
  induction s with
  | nil => simp [List.takeWhile]
  | cons a t ih =>
    have ha : a ≠ 0 := fun e => h (by simp [e])
    have ht : 0 ∉ t := fun m => h (List.mem_cons_of_mem a m)
    have hb : (a != 0) = true := by simp [ha]
    simp [List.takeWhile, hb, ih ht]

theorem bin2json_eq_call (k : payload_kind) (reg : registry) (bytes : List Nat) (length : Nat)
    (w : world) : k.bin2json reg bytes length w = call_bin2json reg k.bin2json_name bytes length w := by
  cases k <;> rfl

theorem json2bin_eq_call (k : payload_kind) (reg : registry) (json : List Nat)
    (out_bytes : Option (List Nat)) (w : world) :
    k.json2bin reg json out_bytes w = call_json2bin reg k.json2bin_name json out_bytes w := by
  cases k <;> rfl

theorem dark_init_ocaml_started (res : value) (w : world)
    (hres : res.is_exception_result = false) :
    dark_init_ocaml res w = ("loaded", { held := false, trace := w.trace ++
      [event.printf log_line.ocaml_loaded, event.startup_exn,
       event.printf log_line.registering_main_thread, event.c_thread_register,
       event.release] }) := by
  simp [dark_init_ocaml, caml_startup_exn, check_exception, Is_exception_result, record,
    caml_c_thread_register, caml_release_runtime_system, hres]

theorem dark_init_ocaml_startup_raised (res : value) (w : world)
    (hres : res.is_exception_result = true) :
    dark_init_ocaml res w = ("loaded", { held := false, trace := w.trace ++
      [event.printf log_line.ocaml_loaded, event.startup_exn, event.format_exception,
       event.printf (log_line.exception_thrown "dark_init_ocaml" "caml_startup_exn" ""),
       event.release, event.printf log_line.registering_main_thread, event.c_thread_register,
       event.release] }) := by
  simp [dark_init_ocaml, caml_startup_exn, check_exception, Is_exception_result, record,
    caml_c_thread_register, caml_release_runtime_system, caml_format_exception, unlock, hres]

/-! ## The claims -/

/-- C6: when the bin2json callback name is registered and the buffer holds at
least `length` bytes, `call_bin2json` invokes the callback exactly once, on the
runtime string made of exactly the first `length` input bytes (NUL bytes
included), and when the callback returns a string `s` whose length the `int`
of `copy_string_outside_runtime` holds (`|s| < INT_MAX`), the call returns a
non-NULL buffer of `|s|+1` bytes: `s` followed by one `0`. -/
theorem C6_call_bin2json_terminated_copy (reg : registry) (name : String) (bytes : List Nat)
    (length : Nat) (w : world) (c : named_value) (hw : w.held = false)
    (hlen : length ≤ bytes.length) (hint : (length : Int) ≤ INT_MAX)
    (hreg : reg name = some c) (hc : c.val.is_exception_result = false) :
    ∃ (arg : List Nat),
      arg.length = length ∧ (∀ i, i < length → arg[i]? = bytes[i]?) ∧
      (∃ w1 es, (call_bin2json reg name bytes length w).world = some w1 ∧
        w1.trace = w.trace ++ es ∧
        es.filter event.is_callback = [event.callback_exn (string_value arg)]) ∧
      ∀ s, c.apply (string_value arg) = string_value s → (s.length : Int) < INT_MAX →
        ∃ buf w1, call_bin2json reg name bytes length w = outcome.returned (some buf) w1 ∧
          buf.length = s.length + 1 ∧ buf.take s.length = s ∧ buf[s.length]? = some 0 := by
  have _ := hint
  have harg : (bytes.take length).length = length := by simp [hlen]
  have hpre : ∀ i, i < length → (bytes.take length)[i]? = bytes[i]? := by
    intro i hi
    simp [List.getElem?_take, hi]
  refine ⟨bytes.take length, harg, hpre, ?_, ?_⟩
  · by_cases hexn : (c.apply (string_value (bytes.take length))).is_exception_result = true
    · rw [call_bin2json_raised reg name bytes length w c hw hreg hc hexn]
      exact ⟨_, _, rfl, rfl, by simp [event.is_callback]⟩
    · have hexn2 : (c.apply (string_value (bytes.take length))).is_exception_result = false := by
        simpa using hexn
      by_cases htag : (c.apply (string_value (bytes.take length))).tag = String_tag
      · have hs : c.apply (string_value (bytes.take length)) =
            string_value (c.apply (string_value (bytes.take length))).bytes := by
          cases hr : c.apply (string_value (bytes.take length)) with
          | mk e t b =>
            rw [hr] at hexn2 htag
            simp at hexn2 htag
            simp [string_value, hexn2, htag]
        rw [call_bin2json_string reg name bytes length w c _ hw hreg hc hs]
        split
        · exact ⟨_, _, rfl, rfl, by simp [event.is_callback]⟩
        · exact ⟨_, _, rfl, rfl, by simp [event.is_callback]⟩
      · rw [call_bin2json_not_string reg name bytes length w c hw hreg hc hexn2 htag]
        exact ⟨_, _, rfl, rfl, by simp [event.is_callback]⟩
  · intro s hs hbound
    refine ⟨s ++ [0], _, call_bin2json_success reg name bytes length w c s hw hreg hc hs hbound,
      ?_, ?_, ?_⟩
    · simp
    · simp
    · simp

/-- C6 at the registry `sample_registry`, callback `handler_bin2json`, on the
three bytes `1, 0, 2`. -/
theorem C6_call_bin2json_terminated_copy_witness :
    idle.held = false ∧ 3 ≤ [1, 0, 2].length ∧ ((3 : Nat) : Int) ≤ INT_MAX ∧
    sample_registry "handler_bin2json" = some echo ∧
    echo.val.is_exception_result = false ∧
    ∃ (arg : List Nat),
      arg.length = 3 ∧ (∀ i, i < 3 → arg[i]? = [1, 0, 2][i]?) ∧
      (∃ w1 es, (call_bin2json sample_registry "handler_bin2json" [1, 0, 2] 3 idle).world =
          some w1 ∧
        w1.trace = idle.trace ++ es ∧
        es.filter event.is_callback = [event.callback_exn (string_value arg)]) ∧
      ∀ s, echo.apply (string_value arg) = string_value s → (s.length : Int) < INT_MAX →
        ∃ buf w1, call_bin2json sample_registry "handler_bin2json" [1, 0, 2] 3 idle =
            outcome.returned (some buf) w1 ∧
          buf.length = s.length + 1 ∧ buf.take s.length = s ∧ buf[s.length]? = some 0 :=
  ⟨rfl, by decide, by decide, rfl, rfl,
    C6_call_bin2json_terminated_copy sample_registry "handler_bin2json" [1, 0, 2] 3 idle echo
      rfl (by decide) (by decide) rfl rfl⟩

/-- C3: with the lock free, each of `call_bin2json`, `call_json2bin`,
`string_to_string` and `digest` called on a name that is not registered returns
its sentinel (`NULL`, or `0` with the out-parameter untouched), having locked
once, unlocked once and invoked no callback, and leaves the lock free; the same
operation called next on a registered callback that returns a string (for
`digest`: on a registered string) whose length the `int` of the copy holds
returns its normal result. -/
theorem C3_missing_callback_then_success (reg : registry) (w : world) (hw : w.held = false) :
    (∀ name bytes length, reg name = none →
      ∃ w1 es, call_bin2json reg name bytes length w = outcome.returned none w1 ∧
        w1.held = false ∧
        w1.trace = w.trace ++ es ∧ count_lock es = 1 ∧ count_unlock es = 1 ∧
        es.filter event.is_callback = [] ∧
        ∀ (reg2 : registry) (name2 : String) (c : named_value) (bytes2 : List Nat)
          (length2 : Nat) (s : List Nat),
          reg2 name2 = some c → c.val.is_exception_result = false →
          c.apply (string_value (bytes2.take length2)) = string_value s →
          (length2 : Int) ≤ INT_MAX → (s.length : Int) < INT_MAX →
          ∃ w2, call_bin2json reg2 name2 bytes2 length2 w1 =
            outcome.returned (some (s ++ [0])) w2) ∧
    (∀ name json out_bytes, reg name = none →
      ∃ w1 es, call_json2bin reg name json out_bytes w = outcome.returned (0, out_bytes) w1 ∧
        w1.held = false ∧
        w1.trace = w.trace ++ es ∧ count_lock es = 1 ∧ count_unlock es = 1 ∧
        es.filter event.is_callback = [] ∧
        ∀ (reg2 : registry) (name2 : String) (c : named_value) (json2 : List Nat)
          (out2 : Option (List Nat)) (s : List Nat),
          reg2 name2 = some c → c.val.is_exception_result = false →
          c.apply (string_value (json2.takeWhile (fun b => b != 0))) = string_value s →
          (s.length : Int) ≤ INT_MAX →
          ∃ w2, call_json2bin reg2 name2 json2 out2 w1 =
            outcome.returned ((s.length : Int), some s) w2) ∧
    (∀ name bytesIn lengthIn bytesOut, reg name = none →
      ∃ w1 es, string_to_string reg name bytesIn lengthIn bytesOut w =
          outcome.returned (0, bytesOut) w1 ∧
        w1.held = false ∧
        w1.trace = w.trace ++ es ∧ count_lock es = 1 ∧ count_unlock es = 1 ∧
        es.filter event.is_callback = [] ∧
        ∀ (reg2 : registry) (name2 : String) (c : named_value) (bytes2 : List Nat)
          (length2 : Nat) (out2 : Option (List Nat)) (s : List Nat),
          reg2 name2 = some c → c.val.is_exception_result = false →
          c.apply (string_value (bytes2.take length2)) = string_value s →
          (length2 : Int) ≤ INT_MAX → (s.length : Int) < INT_MAX →
          ∃ w2, string_to_string reg2 name2 bytes2 length2 out2 w1 =
            outcome.returned ((s.length : Int), some (s ++ [0])) w2) ∧
    (reg "digest" = none →
      ∃ w1 es, digest reg w = outcome.returned none w1 ∧ w1.held = false ∧
        w1.trace = w.trace ++ es ∧ count_lock es = 1 ∧ count_unlock es = 1 ∧
        es.filter event.is_callback = [] ∧
        ∀ (reg2 : registry) (d : named_value) (s : List Nat),
          reg2 "digest" = some d → d.val = string_value s → (s.length : Int) < INT_MAX →
          ∃ w2, digest reg2 w1 = outcome.returned (some (s ++ [0])) w2) := by
  refine ⟨?_, ?_, ?_, ?_⟩
  · intro name bytes length hreg
    refine ⟨_, _, call_bin2json_missing reg name bytes length w hw hreg, rfl, rfl, ?_, ?_, ?_, ?_⟩
    · simp [count_lock]
    · simp [count_unlock]
    · simp [event.is_callback]
    · intro reg2 name2 c bytes2 length2 s h2 hc hs _ hb
      exact ⟨_, call_bin2json_success reg2 name2 bytes2 length2 _ c s rfl h2 hc hs hb⟩
  · intro name json out_bytes hreg
    refine ⟨_, _, call_json2bin_missing reg name json out_bytes w hw hreg, rfl, rfl, ?_, ?_, ?_,
      ?_⟩
    · simp [count_lock]
    · simp [count_unlock]
    · simp [event.is_callback]
    · intro reg2 name2 c json2 out2 s h2 hc hs hb
      exact ⟨_, call_json2bin_success reg2 name2 json2 out2 _ c s rfl h2 hc hs hb⟩
  · intro name bytesIn lengthIn bytesOut hreg
    refine ⟨_, _, string_to_string_missing reg name bytesIn lengthIn bytesOut w hw hreg, rfl, rfl,
      ?_, ?_, ?_, ?_⟩
    · simp [count_lock]
    · simp [count_unlock]
    · simp [event.is_callback]
    · intro reg2 name2 c bytes2 length2 out2 s h2 hc hs _ hb
      exact ⟨_, string_to_string_success reg2 name2 bytes2 length2 out2 _ c s rfl h2 hc hs hb⟩
  · intro hreg
    refine ⟨_, _, digest_missing reg w hw hreg, rfl, rfl, ?_, ?_, ?_, ?_⟩
    · simp [count_lock]
    · simp [count_unlock]
    · simp [event.is_callback]
    · intro reg2 d s h2 hs hb
      exact ⟨_, digest_success reg2 _ d s rfl h2 hs hb⟩

/-- C3 at the empty registry followed by `sample_registry`: the missing
callback gives the sentinel, the next call gives the result of `echo` (for
`digest`: the registered string `100, 49`). -/
theorem C3_missing_callback_then_success_witness :
    idle.held = false ∧ empty_registry "handler_bin2json" = none ∧
    empty_registry "handler_json2bin" = none ∧
    empty_registry "to_internal_roundtrippable_v0" = none ∧ empty_registry "digest" = none ∧
    (∃ w1 w2, call_bin2json empty_registry "handler_bin2json" [1, 0, 2] 3 idle =
        outcome.returned none w1 ∧
      call_bin2json sample_registry "handler_bin2json" [1, 0, 2] 3 w1 =
        outcome.returned (some [1, 0, 2, 0]) w2) ∧
    (∃ w1 w2, call_json2bin empty_registry "handler_json2bin" [123, 125, 0] none idle =
        outcome.returned (0, none) w1 ∧
      call_json2bin sample_registry "handler_json2bin" [123, 125, 0] none w1 =
        outcome.returned (2, some [123, 125]) w2) ∧
    (∃ w1 w2, string_to_string empty_registry "to_internal_roundtrippable_v0" [1, 0, 2] 3 none
        idle = outcome.returned (0, none) w1 ∧
      string_to_string sample_registry "to_internal_roundtrippable_v0" [1, 0, 2] 3 none w1 =
        outcome.returned (3, some [1, 0, 2, 0]) w2) ∧
    (∃ w1 w2, digest empty_registry idle = outcome.returned none w1 ∧
      digest sample_registry w1 = outcome.returned (some [100, 49, 0]) w2) := by
  obtain ⟨hb, hj, hs, hd⟩ := C3_missing_callback_then_success empty_registry idle rfl
  refine ⟨rfl, rfl, rfl, rfl, rfl, ?_, ?_, ?_, ?_⟩
  · obtain ⟨w1, _, h1, _, _, _, _, _, h2⟩ := hb "handler_bin2json" [1, 0, 2] 3 rfl
    obtain ⟨w2, h3⟩ := h2 sample_registry "handler_bin2json" echo [1, 0, 2] 3 [1, 0, 2]
      rfl rfl rfl (by decide) (by decide)
    exact ⟨w1, w2, h1, h3⟩
  · obtain ⟨w1, _, h1, _, _, _, _, _, h2⟩ := hj "handler_json2bin" [123, 125, 0] none rfl
    obtain ⟨w2, h3⟩ := h2 sample_registry "handler_json2bin" echo [123, 125, 0] none [123, 125]
      rfl rfl rfl (by decide)
    exact ⟨w1, w2, h1, h3⟩
  · obtain ⟨w1, _, h1, _, _, _, _, _, h2⟩ :=
      hs "to_internal_roundtrippable_v0" [1, 0, 2] 3 none rfl
    obtain ⟨w2, h3⟩ := h2 sample_registry "to_internal_roundtrippable_v0" echo [1, 0, 2] 3 none
      [1, 0, 2] rfl rfl rfl (by decide) (by decide)
    exact ⟨w1, w2, h1, h3⟩
  · obtain ⟨w1, _, h1, _, _, _, _, _, h2⟩ := hd rfl
    obtain ⟨w2, h3⟩ := h2 sample_registry
      { val := string_value [100, 49], apply := fun v => v } [100, 49] rfl rfl (by decide)
    exact ⟨w1, w2, h1, h3⟩

/-- C4, amended: for each of the eight payload kinds and every buffer `x` whose
length an `int` holds, when the bin2json callback maps `x` to a text `s` without
NUL byte and of fewer than `INT_MAX` bytes, and the json2bin callback maps `s`
back to `x`, the buffer returned by `K_bin2json(x, |x|)`, passed to `K_json2bin`,
gives length `|x|` and an output buffer equal to `x`. -/
theorem C4_roundtrip_of_nul_free_json (k : payload_kind) (reg : registry) (x s : List Nat)
    (enc dec : named_value) (out_bytes : Option (List Nat)) (w : world) (hw : w.held = false)
    (henc : reg k.bin2json_name = some enc) (hdec : reg k.json2bin_name = some dec)
    (hce : enc.val.is_exception_result = false) (hcd : dec.val.is_exception_result = false)
    (hs : enc.apply (string_value x) = string_value s)
    (hinv : dec.apply (string_value s) = string_value x) (hnul : 0 ∉ s)
    (hx : (x.length : Int) ≤ INT_MAX) (hlen : (s.length : Int) < INT_MAX) :
    ∃ buf w1 w2, k.bin2json reg x x.length w = outcome.returned (some buf) w1 ∧
      k.json2bin reg buf out_bytes w1 = outcome.returned ((x.length : Int), some x) w2 := by
  have hs2 : enc.apply (string_value (x.take x.length)) = string_value s := by
    simpa using hs
  have hinv2 : dec.apply (string_value ((s ++ [0]).takeWhile (fun b => b != 0))) =
      string_value x := by
    rw [takeWhile_append_nul s hnul]
    exact hinv
  have h1 := call_bin2json_success reg _ x x.length w enc s hw henc hce hs2 hlen
  have h2 := fun (w1 : world) (h : w1.held = false) =>
    call_json2bin_success reg _ (s ++ [0]) out_bytes w1 dec x h hdec hcd hinv2 hx
  rw [← bin2json_eq_call] at h1
  simp only [← json2bin_eq_call] at h2
  exact ⟨s ++ [0], _, _, h1, h2 _ rfl⟩

/-- C4, amended, at `shift_registry`, payload kind `pos`, on the bytes
`1, 0, 2`, which `shift_up` encodes as the NUL-free `2, 1, 3`. -/
theorem C4_roundtrip_of_nul_free_json_witness :
    idle.held = false ∧
    shift_registry payload_kind.pos.bin2json_name = some shift_up ∧
    shift_registry payload_kind.pos.json2bin_name = some shift_down ∧
    shift_up.val.is_exception_result = false ∧ shift_down.val.is_exception_result = false ∧
    shift_up.apply (string_value [1, 0, 2]) = string_value [2, 1, 3] ∧
    shift_down.apply (string_value [2, 1, 3]) = string_value [1, 0, 2] ∧
    0 ∉ [2, 1, 3] ∧ (([1, 0, 2].length : Nat) : Int) ≤ INT_MAX ∧
    (([2, 1, 3].length : Nat) : Int) < INT_MAX ∧
    ∃ buf w1 w2, payload_kind.pos.bin2json shift_registry [1, 0, 2] [1, 0, 2].length idle =
        outcome.returned (some buf) w1 ∧
      payload_kind.pos.json2bin shift_registry buf none w1 =
        outcome.returned ((([1, 0, 2].length : Nat) : Int), some [1, 0, 2]) w2 :=
  ⟨rfl, rfl, rfl, rfl, rfl, rfl, rfl, by decide, by decide, by decide,
    C4_roundtrip_of_nul_free_json payload_kind.pos shift_registry [1, 0, 2] [2, 1, 3]
      shift_up shift_down none idle rfl rfl rfl rfl rfl rfl rfl (by decide) (by decide)
      (by decide)⟩

/-- C4 as stated fails: in `sample_registry` the handler callbacks are both
`echo`, so json2bin inverts bin2json on `1, 0, 2`; yet `handler_json2bin` on the
buffer returned by `handler_bin2json` gives length `1` and the buffer `1`,
because `caml_copy_string` stops at the NUL byte inside the text. -/
theorem C4_counterexample_embedded_nul :
    sample_registry payload_kind.handler.bin2json_name = some echo ∧
    sample_registry payload_kind.handler.json2bin_name = some echo ∧
    echo.apply (echo.apply (string_value [1, 0, 2])) = string_value [1, 0, 2] ∧
    ∃ buf w1 n out w2,
      payload_kind.handler.bin2json sample_registry [1, 0, 2] [1, 0, 2].length idle =
        outcome.returned (some buf) w1 ∧
      payload_kind.handler.json2bin sample_registry buf none w1 =
        outcome.returned (n, out) w2 ∧
      n = 1 ∧ out = some [1] ∧ n ≠ (([1, 0, 2].length : Nat) : Int) ∧ out ≠ some [1, 0, 2] :=
  ⟨rfl, rfl, rfl, [1, 0, 2, 0], _, 1, some [1], _, rfl, rfl, rfl, rfl, by decide, by decide⟩

/-- C5: when the callback of `of_internal_roundtrippable_v0` inverts the
callback of `to_internal_roundtrippable_v0` on the bytes `v` (empty or with NUL
bytes inside alike), and `v` and its image `s` are shorter than `INT_MAX` bytes,
`to_internal_roundtrippable_v0(v, |v|)` followed by
`of_internal_roundtrippable_v0` on the returned buffer and the returned length
gives length `|v|` and an output buffer whose first `|v|` bytes are `v`. -/
theorem C5_internal_roundtrippable_roundtrip (reg : registry) (v s : List Nat)
    (enc dec : named_value) (out1 out2 : Option (List Nat)) (w : world) (hw : w.held = false)
    (henc : reg "to_internal_roundtrippable_v0" = some enc)
    (hdec : reg "of_internal_roundtrippable_v0" = some dec)
    (hce : enc.val.is_exception_result = false) (hcd : dec.val.is_exception_result = false)
    (hs : enc.apply (string_value v) = string_value s)
    (hinv : dec.apply (string_value s) = string_value v)
    (hv : (v.length : Int) < INT_MAX) (hlen : (s.length : Int) < INT_MAX) :
    ∃ (n1 : Nat) (buf1 : List Nat) (w1 : world) (buf2 : List Nat) (w2 : world),
      to_internal_roundtrippable_v0 reg v v.length out1 w =
        outcome.returned ((n1 : Int), some buf1) w1 ∧
      of_internal_roundtrippable_v0 reg buf1 n1 out2 w1 =
        outcome.returned ((v.length : Int), some buf2) w2 ∧
      buf2.take v.length = v := by
  have hs2 : enc.apply (string_value (v.take v.length)) = string_value s := by
    simpa using hs
  have hinv2 : dec.apply (string_value ((s ++ [0]).take s.length)) = string_value v := by
    simpa using hinv
  have h1 := string_to_string_success reg _ v v.length out1 w enc s hw henc hce hs2 hlen
  have h2 := fun (w1 : world) (h : w1.held = false) =>
    string_to_string_success reg _ (s ++ [0]) s.length out2 w1 dec v h hdec hcd hinv2 hv
  exact ⟨s.length, s ++ [0], _, v ++ [0], _, h1, h2 _ rfl, by simp⟩

/-- C5 at `sample_registry`, whose two callbacks are `echo`, on the bytes
`1, 0, 2` with a NUL byte inside. -/
theorem C5_internal_roundtrippable_roundtrip_witness :
    idle.held = false ∧
    sample_registry "to_internal_roundtrippable_v0" = some echo ∧
    sample_registry "of_internal_roundtrippable_v0" = some echo ∧
    echo.val.is_exception_result = false ∧
    echo.apply (string_value [1, 0, 2]) = string_value [1, 0, 2] ∧
    (([1, 0, 2].length : Nat) : Int) < INT_MAX ∧
    ∃ (n1 : Nat) (buf1 : List Nat) (w1 : world) (buf2 : List Nat) (w2 : world),
      to_internal_roundtrippable_v0 sample_registry [1, 0, 2] [1, 0, 2].length none idle =
        outcome.returned ((n1 : Int), some buf1) w1 ∧
      of_internal_roundtrippable_v0 sample_registry buf1 n1 none w1 =
        outcome.returned ((([1, 0, 2].length : Nat) : Int), some buf2) w2 ∧
      buf2.take [1, 0, 2].length = [1, 0, 2] :=
  ⟨rfl, rfl, rfl, rfl, rfl, by decide,
    C5_internal_roundtrippable_roundtrip sample_registry [1, 0, 2] [1, 0, 2] echo echo none none
      idle rfl rfl rfl rfl rfl rfl rfl (by decide) (by decide)⟩

/-- C10, amended: a successful `string_to_string` call, whose callback returns
a string `s` of fewer than `INT_MAX` bytes, returns `lengthOut = |s|` and stores
in `*bytesOut` a buffer of `lengthOut + 1` bytes, the bytes of `s` followed by
one `0` byte: the output is made by the NUL-terminating transfer
`copy_string_outside_runtime`. -/
theorem C10_string_to_string_terminated_copy (reg : registry) (name : String)
    (bytesIn : List Nat) (lengthIn : Nat) (bytesOut : Option (List Nat)) (w : world)
    (c : named_value) (s : List Nat) (hw : w.held = false) (hreg : reg name = some c)
    (hc : c.val.is_exception_result = false)
    (hs : c.apply (string_value (bytesIn.take lengthIn)) = string_value s)
    (hin : (lengthIn : Int) ≤ INT_MAX) (hlen : (s.length : Int) < INT_MAX) :
    ∃ (lengthOut : Int) (buf : List Nat) (w1 : world),
      string_to_string reg name bytesIn lengthIn bytesOut w =
        outcome.returned (lengthOut, some buf) w1 ∧
      lengthOut = (s.length : Int) ∧ buf = s ++ [0] ∧ (buf.length : Int) = lengthOut + 1 := by
  have _ := hin
  exact ⟨(s.length : Int), s ++ [0], _,
    string_to_string_success reg name bytesIn lengthIn bytesOut w c s hw hreg hc hs hlen,
    rfl, rfl, by simp⟩

/-- C10, amended, at `sample_registry`, callback `of_internal_roundtrippable_v0`
(which is `echo`), on the two bytes `123, 125`. -/
theorem C10_string_to_string_terminated_copy_witness :
    idle.held = false ∧ sample_registry "of_internal_roundtrippable_v0" = some echo ∧
    echo.val.is_exception_result = false ∧
    echo.apply (string_value ([123, 125].take 2)) = string_value [123, 125] ∧
    ((2 : Nat) : Int) ≤ INT_MAX ∧ (([123, 125].length : Nat) : Int) < INT_MAX ∧
    ∃ (lengthOut : Int) (buf : List Nat) (w1 : world),
      string_to_string sample_registry "of_internal_roundtrippable_v0" [123, 125] 2 none idle =
        outcome.returned (lengthOut, some buf) w1 ∧
      lengthOut = (([123, 125].length : Nat) : Int) ∧ buf = [123, 125] ++ [0] ∧
      (buf.length : Int) = lengthOut + 1 :=
  ⟨rfl, rfl, rfl, rfl, by decide, by decide,
    C10_string_to_string_terminated_copy sample_registry "of_internal_roundtrippable_v0"
      [123, 125] 2 none idle echo [123, 125] rfl rfl rfl rfl (by decide) (by decide)⟩

/-- C10 as stated fails: the call `to_internal_roundtrippable_v0`
on `1, 0, 2` with the callback `echo` returns `lengthOut = 3` and a buffer of
four bytes, the fourth being the appended `0`. -/
theorem C10_counterexample_extra_byte :
    ∃ (lengthOut : Int) (buf : List Nat) (w1 : world),
      to_internal_roundtrippable_v0 sample_registry [1, 0, 2] 3 none idle =
        outcome.returned (lengthOut, some buf) w1 ∧
      lengthOut = 3 ∧ buf = [1, 0, 2, 0] ∧ (buf.length : Int) ≠ lengthOut :=
  ⟨3, [1, 0, 2, 0], _, rfl, rfl, rfl, by decide⟩

/-- C1 fails on the code: one invocation does not always unlock exactly once.
`execute` (that is `string_to_string`) with a callback that raises locks once
and unlocks twice, `check_string` unlocking a second time after the
`check_exception` it calls has unlocked; `expr_bin2json` and `expr_json2bin`
with a callback whose result is no string unlock twice, once in `check_string`
and once more at the end of `call_bin2json` and of `call_json2bin`. -/
theorem C1_unlocks_more_than_once :
    execute sample_registry [1, 0, 2] 3 none idle =
      outcome.returned (0, none) { held := false, trace :=
        [event.acquire, event.named_value "execute", event.alloc_initialized_string,
         event.tag_val, event.callback_exn (string_value [1, 0, 2]), event.format_exception,
         event.printf (log_line.exception_thrown "execute" "string_to_string" "callback_exn"),
         event.release, event.tag_val,
         event.printf (log_line.not_a_string "execute" "string_to_string" "callback_exn"),
         event.release] } ∧
    (execute sample_registry [1, 0, 2] 3 none idle).world.map
      (fun w => (count_lock w.trace, count_unlock w.trace)) = some (1, 2) ∧
    expr_bin2json sample_registry [123, 125] 2 idle =
      outcome.returned none { held := false, trace :=
        [event.acquire, event.alloc_initialized_string, event.tag_val,
         event.named_value "expr_bin2json", event.callback_exn (string_value [123, 125]),
         event.tag_val,
         event.printf (log_line.not_a_string "expr_bin2json" "call_bin2json"
           "copy_string_outside_runtime"),
         event.release, event.release] } ∧
    (expr_bin2json sample_registry [123, 125] 2 idle).world.map
      (fun w => (count_lock w.trace, count_unlock w.trace)) = some (1, 2) ∧
    (∃ n, expr_json2bin sample_registry [123, 125, 0] none idle =
      outcome.returned (n, none) { held := false, trace :=
        [event.acquire, event.named_value "expr_json2bin", event.copy_string, event.tag_val,
         event.callback_exn (string_value [123, 125]), event.string_length, event.tag_val,
         event.printf (log_line.not_a_string "" "copy_bytes_outside_runtime" ""),
         event.release, event.release] }) ∧
    (expr_json2bin sample_registry [123, 125, 0] none idle).world.map
      (fun w => (count_lock w.trace, count_unlock w.trace)) = some (1, 2) := by
  refine ⟨rfl, ?_, rfl, ?_, ⟨_, rfl⟩, ?_⟩ <;> decide

/-- C2 fails on the code for the json2bin family: `db_json2bin` with a callback
that raises does not return the sentinel `0`.  `call_json2bin` never tests the
callback result for an exception; it applies `caml_string_length` to the
exception result, and the call faults there: it does not return, the lock is
still held, nothing has been unlocked and no warning has been printed. -/
theorem C2_json2bin_exception_faults :
    sample_registry "db_json2bin" = some raising ∧
    (raising.apply (string_value [123, 125])).is_exception_result = true ∧
    db_json2bin sample_registry [123, 125, 0] none idle =
      outcome.fault { held := true, trace :=
        [event.acquire, event.named_value "db_json2bin", event.copy_string, event.tag_val,
         event.callback_exn (string_value [123, 125]), event.string_length] } ∧
    (db_json2bin sample_registry [123, 125, 0] none idle).world.map
      (fun w => (w.held, count_unlock w.trace, warnings w.trace)) = some (true, 0, []) := by
  refine ⟨rfl, rfl, rfl, ?_⟩
  decide

/-- C7 fails on the code: in `execute` with a callback that raises,
`check_string` reads the tag of the result (`Tag_val`) after `check_exception`
has released the lock, so a runtime access happens with the lock free. -/
theorem C7_tag_read_after_unlock :
    (execute sample_registry [1, 0, 2] 3 none idle).world.map (fun w => w.trace) =
      some [event.acquire, event.named_value "execute", event.alloc_initialized_string,
        event.tag_val, event.callback_exn (string_value [1, 0, 2]), event.format_exception,
        event.printf (log_line.exception_thrown "execute" "string_to_string" "callback_exn"),
        event.release, event.tag_val,
        event.printf (log_line.not_a_string "execute" "string_to_string" "callback_exn"),
        event.release] ∧
    (execute sample_registry [1, 0, 2] 3 none idle).world.map
      (fun w => accesses_under_lock false w.trace) = some false := by
  refine ⟨rfl, ?_⟩
  decide

/-- C8 fails on the code when `caml_startup_exn` yields an exception result:
`dark_init_ocaml` still returns `"loaded"`, but it releases the lock twice, the
first time (inside `check_exception`) before the thread is registered. -/
theorem C8_startup_exception_releases_twice :
    dark_init_ocaml raised idle = ("loaded", { held := false, trace :=
      [event.printf log_line.ocaml_loaded, event.startup_exn, event.format_exception,
       event.printf (log_line.exception_thrown "dark_init_ocaml" "caml_startup_exn" ""),
       event.release, event.printf log_line.registering_main_thread, event.c_thread_register,
       event.release] }) ∧
    count_unlock (dark_init_ocaml raised idle).2.trace = 2 ∧
    ((dark_init_ocaml raised idle).2.trace.takeWhile
      (fun e => e != event.c_thread_register)).count event.release = 1 := by
  refine ⟨rfl, ?_, ?_⟩ <;> decide

/-- C9 fails on the code for the json2bin family: when the callback of
`expr_json2bin` returns a value that is no string, the only warning comes from
`copy_bytes_outside_runtime`, which passes the empty string as first and third
context field: the line printed does not name the entry point. -/
theorem C9_json2bin_warning_without_entry_name :
    (expr_json2bin sample_registry [123, 125, 0] none idle).world.map
      (fun w => warnings w.trace) =
      some [log_line.not_a_string "" "copy_bytes_outside_runtime" ""] ∧
    (expr_json2bin sample_registry [123, 125, 0] none idle).world.map
      (fun w => (warnings w.trace).map log_line.ctx1) ≠ some [some "expr_json2bin"] := by
  refine ⟨?_, ?_⟩ <;> decide

end SerializationStubs
